import Mathlib

/-!
Verification development for the bb-weather-agent repository.

The definitions below are a shallow embedding of the Python sources:

* `src/src/copilot.py` — `WeatherCopilot` (`process_query`, `_handle_command`,
  `_synthesize_response`, `_format_history`, `_get_status`);
* `src/src/agent.py` — `WeatherAgent` (`_initialize_agent` tool declarations,
  `_enhance_question`, `get_schema_info`, `execute_raw_sql`);
* `src/src/schema_manager.py` — `SchemaManager` (`get_schema`, `get_table_info`,
  `get_schema_description`, `_get_field_description`,
  `get_sample_data_description`, `get_full_context`);
* `src/src/utils/bigquery_helper.py` — the gateway method surface;
* `src/src/utils/config.py` — the configuration defaults.

Python strings are modelled as Lean `String` with structurally recursive
ASCII case mapping, stripping and slicing helpers (the Lean core versions use
well-founded recursion and do not reduce definitionally).  External
collaborators (the LLM completion service, the BigQuery client, `self.db`)
are modelled as explicit oracle parameters; Python exceptions are modelled
with `Except String`, the `String` being the exception's rendering `str(e)`.
-/

/-! ## Python string primitives -/

/-- ASCII case folding of one character, as `str.lower` acts on ASCII text. -/
def pyLowerChar (c : Char) : Char :=
  if 65 ≤ c.toNat ∧ c.toNat ≤ 90 then Char.ofNat (c.toNat + 32) else c

/-- ASCII upper casing of one character, as `str.upper` acts on ASCII text. -/
def pyUpperChar (c : Char) : Char :=
  if 97 ≤ c.toNat ∧ c.toNat ≤ 122 then Char.ofNat (c.toNat - 32) else c

/-- Python `str.lower` (ASCII fragment). -/
def pyLower (s : String) : String := ⟨s.data.map pyLowerChar⟩

/-- Python `str.upper` (ASCII fragment). -/
def pyUpper (s : String) : String := ⟨s.data.map pyUpperChar⟩

/-- The whitespace characters removed by Python `str.strip`. -/
def pyIsSpace (c : Char) : Bool :=
  c = ' ' || c = '\t' || c = '\n' || c = '\r' || c = '\x0b' || c = '\x0c'

/-- Python `str.strip` with no argument. -/
def pyStrip (s : String) : String :=
  ⟨((s.data.dropWhile pyIsSpace).reverse.dropWhile pyIsSpace).reverse⟩

/-- Python `str.startswith`. -/
def pyStartsWith (s pre : String) : Bool :=
  pre.data.isPrefixOf s.data

/-- Python slicing `s[:n]`. -/
def pyTake (s : String) (n : Nat) : String := ⟨s.data.take n⟩

/-- Python `len` on a string (code points). -/
def pyLen (s : String) : Nat := s.data.length

/-- Python `str.capitalize`: first character upper cased, the rest lowered. -/
def pyCapitalize (s : String) : String :=
  match s.data with
  | [] => ""
  | c :: rest => ⟨pyUpperChar c :: rest.map pyLowerChar⟩

/-- Contiguous-occurrence test on character lists (helper of `pyContains`). -/
def listContains (needle : List Char) : List Char → Bool
  | [] => needle.isEmpty
  | c :: rest => needle.isPrefixOf (c :: rest) || listContains needle rest

/-- Python substring test `needle in haystack`. -/
def pyContains (haystack needle : String) : Bool :=
  listContains needle.data haystack.data

/-- Grouping step for `pyThousands`, on the reversed digit list. -/
def commaRev : List Char → List Char
  | a :: b :: c :: d :: rest => a :: b :: c :: ',' :: commaRev (d :: rest)
  | l => l

/-- Python format spec `:,` on a natural number: thousands separators. -/
def pyThousands (n : Nat) : String :=
  ⟨(commaRev (toString n).data.reverse).reverse⟩

/-! ## Configuration (`src/src/utils/config.py`)

The environment-variable defaults of `Config`; every value below is the
default written in the source (the deployment may override them, the claims
do not depend on the particular values). -/

namespace Config

def OPENAI_MODEL : String := "gpt-5"

def BQ_TABLE_PROJECT_ID : String := "cio-datahub-enterprise-pr-183a"

def BIGQUERY_DATASET : String := "ent_common_location"

def BIGQUERY_TABLE : String := "bq_weather_current"

def MAX_QUERY_RESULTS : Nat := 1000

/-- `Config.get_full_table_name`. -/
def get_full_table_name : String :=
  BQ_TABLE_PROJECT_ID ++ "." ++ BIGQUERY_DATASET ++ "." ++ BIGQUERY_TABLE

end Config

/-! ## Copilot data model (`src/src/copilot.py`) -/

/-- One entry of `WeatherCopilot.conversation_history`:
a dict `{'role': ..., 'content': ...}`. -/
structure Turn where
  role : String
  content : String
deriving Repr, DecidableEq

/-- The dictionary returned by `WeatherAgent.query` as consumed by the
copilot: `question`, `answer` and `success` (the `intermediate_steps` /
`error` entries are never read by the copilot).  `WeatherAgent.query`
wraps its whole body in `try/except` and returns a dictionary on both
paths, so it is modelled as a total function of the input. -/
structure AgentResult where
  question : String
  answer : String
  success : Bool
deriving Repr, DecidableEq

/-- The response dictionary `process_query` hands to the front end.
`question`, `is_command` and `error` are `Option`s because the
corresponding keys are present only on some paths; `answer` and `success`
are present on every path.  In the source `is_command`, when present, is
always `True`. -/
structure Response where
  success : Bool
  answer : String
  question : Option String := none
  is_command : Option Bool := none
  error : Option String := none
deriving Repr, DecidableEq

/-- The mutable state of one `WeatherCopilot` instance that the claims
concern: `conversation_history`. -/
structure CopilotState where
  history : List Turn
deriving Repr, DecidableEq

/-- `WeatherCopilot._get_help_text`. -/
def get_help_text : String :=
  "\nWeather Agent - Available Commands:\n\n" ++
  "- /help       - Show this help message\n" ++
  "- /schema     - Display the weather data table schema\n" ++
  "- /history    - Show conversation history\n" ++
  "- /clear      - Clear conversation history\n" ++
  "- /status     - Show system status\n\n" ++
  "Example Queries:\n" ++
  "- \"What's the current weather in Toronto?\"\n" ++
  "- \"Show me temperature trends for Vancouver\"\n" ++
  "- \"What was the weather like in Montreal yesterday?\"\n" ++
  "- \"Which locations had the highest temperature?\"\n" ++
  "- \"Give me average precipitation for all locations\"\n\n" ++
  "You can ask questions in natural language, and I'll query the weather database for you!\n"

/-- The body of the history loop in `WeatherCopilot._format_history`:
`entry['content'][:200] + \"...\" if len(entry['content']) > 200 else entry['content']`. -/
def truncateContent (content : String) : String :=
  if pyLen content > 200 then pyTake content 200 ++ "..." else content

/-- One iteration of the `_format_history` loop:
`formatted += f\"{i}. {role}: {content}\\n\\n\"` with `role` capitalized and
`content` truncated. -/
def formatHistoryLine (i : Nat) (entry : Turn) : String :=
  toString i ++ ". " ++ pyCapitalize entry.role ++ ": " ++
    truncateContent entry.content ++ "\n\n"

/-- The `for i, entry in enumerate(self.conversation_history, 1)` loop of
`_format_history`, unrolled as structural recursion carrying the counter. -/
def formatHistoryLoop (i : Nat) : List Turn → String
  | [] => ""
  | entry :: rest => formatHistoryLine i entry ++ formatHistoryLoop (i + 1) rest

/-- `WeatherCopilot._format_history`. -/
def format_history (history : List Turn) : String :=
  if history.isEmpty then "No conversation history yet."
  else "Conversation History:\n\n" ++ formatHistoryLoop 1 history

/-- The `str(e)` rendering of the `TypeError` raised by the `/schema`
branch of `_handle_command`: it calls
`self.agent.get_schema_info(include_samples=False)`, but
`WeatherAgent.get_schema_info` (src/src/agent.py line 151) accepts no
`include_samples` parameter, so the call raises before entering the
method. -/
def schemaBranchError : String :=
  "WeatherAgent.get_schema_info() got an unexpected keyword argument 'include_samples'"

/-- The `str(e)` rendering of the `AttributeError` raised by the `/status`
branch: `WeatherCopilot._get_status` evaluates
`self.agent.validate_connection()`, but `WeatherAgent.validate_connection`
is commented out in src/src/agent.py (lines 160-174), so the attribute
lookup raises while the status f-string is being built. -/
def statusBranchError : String :=
  "'WeatherAgent' object has no attribute 'validate_connection'"

/-- A command response dictionary `{'success': ..., 'answer': ..., 'is_command': True}`. -/
def commandResponse (succ : Bool) (ans : String) : Response :=
  { success := succ, answer := ans, is_command := some true }

/-- `WeatherCopilot._handle_command`.  `Except.error e` models the branch
raising a Python exception with `str(e) = e` (escaping to the caller);
`Except.ok` carries the updated copilot state and the returned dictionary. -/
def handle_command (st : CopilotState) (command : String) :
    Except String (CopilotState × Response) :=
  let cmd := pyStrip (pyLower command)
  if cmd = "/help" then
    Except.ok (st, commandResponse true get_help_text)
  else if cmd = "/schema" then
    Except.error schemaBranchError
  else if cmd = "/history" then
    Except.ok (st, commandResponse true (format_history st.history))
  else if cmd = "/clear" then
    Except.ok ({ history := [] }, commandResponse true "Conversation history cleared.")
  else if cmd = "/status" then
    Except.error statusBranchError
  else
    Except.ok (st, commandResponse false
      ("Unknown command: " ++ command ++ ". Type /help for available commands."))

/-- `WeatherCopilot._synthesize_response` (the metadata block is commented
out in the source). -/
def synthesize_response (agent_result : AgentResult) : Response :=
  { success := agent_result.success
    answer := agent_result.answer
    question := some agent_result.question }

/-- The dictionary built by the `except` clause of `process_query`. -/
def processQueryErrorResponse (e : String) : Response :=
  { success := false
    answer := "I encountered an error processing your query: " ++ e
    error := some e }

/-- The command-recognition test of `process_query`:
`user_input.lower().startswith('/')`. -/
def commandRecognized (user_input : String) : Bool :=
  pyStartsWith (pyLower user_input) "/"

/-- `WeatherCopilot.process_query`.  `A` is the behaviour of
`self.agent.query` for this turn (a total function, see `AgentResult`).
The user turn is appended to the history first; then either the command
branch runs (any exception it raises is caught by the surrounding
`try/except`, which returns the error dictionary and leaves the state as
already mutated), or the agent is consulted and, on success, its answer is
appended as an assistant turn. -/
def process_query (A : String → AgentResult) (st : CopilotState)
    (user_input : String) : CopilotState × Response :=
  let st1 : CopilotState := { history := st.history ++ [⟨"user", user_input⟩] }
  if commandRecognized user_input then
    match handle_command st1 user_input with
    | Except.ok out => out
    | Except.error e => (st1, processQueryErrorResponse e)
  else
    let result := A user_input
    let st2 : CopilotState :=
      if result.success then
        { history := st1.history ++ [⟨"assistant", result.answer⟩] }
      else st1
    (st2, synthesize_response result)

/-! ## Schema manager (`src/src/schema_manager.py`) -/

/-- One element of the list returned by `BigQueryHelper.get_table_schema`:
`{'name': ..., 'type': ..., 'mode': ..., 'description': ...}` (the
`description` is `field.description or ''`, hence always a string). -/
structure SchemaField where
  name : String
  type : String
  mode : String
  description : String
deriving Repr, DecidableEq

/-- The dictionary returned by `BigQueryHelper.get_table_info`.  `created`
and `modified` are datetimes in the source; they are modelled by their
textual rendering, which is all `get_schema_description` uses.  The
`description` key is always present (`table.description or ''`), so the
`dict.get` default in `get_schema_description` can never fire. -/
structure TableInfo where
  project : String
  dataset : String
  table : String
  full_table_id : String
  num_rows : Nat
  num_bytes : Nat
  created : String
  modified : String
  description : String
deriving Repr, DecidableEq

/-- The cache slots of one `SchemaManager` instance
(`_schema_cache`, `_table_info_cache`). -/
structure SMState where
  schema_cache : Option (List SchemaField)
  table_info_cache : Option TableInfo
deriving Repr, DecidableEq

/-- The BigQuery client calls a `SchemaManager` can make, as oracles fixed
for one process: each is the outcome (`ok` value or raised exception) the
external service would produce.  The dataset and table arguments are the
configured constants, so they are not parameters here. -/
structure BqOracle where
  fetchSchema : Except String (List SchemaField)
  fetchTableInfo : Except String TableInfo
  fetchSamples : Except String String

/-- `SchemaManager.get_schema`: return the cache when populated, otherwise
fetch (possibly raising) and fill the cache. -/
def get_schema (bq : BqOracle) (st : SMState) :
    Except String (List SchemaField × SMState) :=
  match st.schema_cache with
  | some s => Except.ok (s, st)
  | none =>
    match bq.fetchSchema with
    | Except.ok s => Except.ok (s, { st with schema_cache := some s })
    | Except.error e => Except.error e

/-- `SchemaManager.get_table_info`: cached likewise. -/
def get_table_info (bq : BqOracle) (st : SMState) :
    Except String (TableInfo × SMState) :=
  match st.table_info_cache with
  | some ti => Except.ok (ti, st)
  | none =>
    match bq.fetchTableInfo with
    | Except.ok ti => Except.ok (ti, { st with table_info_cache := some ti })
    | Except.error e => Except.error e

/-- The `descriptions` dictionary of `SchemaManager._get_field_description`,
in insertion order (the order matters for the partial-match loop). -/
def fieldDescriptions : List (String × String) :=
  [("location", "Geographic location name"),
   ("city", "City name"),
   ("province", "Province or state"),
   ("country", "Country name"),
   ("latitude", "Latitude coordinate"),
   ("longitude", "Longitude coordinate"),
   ("temperature", "Temperature reading"),
   ("temp", "Temperature reading"),
   ("feels_like", "Perceived temperature"),
   ("humidity", "Humidity percentage"),
   ("pressure", "Atmospheric pressure"),
   ("wind_speed", "Wind speed"),
   ("wind_direction", "Wind direction"),
   ("weather_condition", "Weather condition description"),
   ("condition", "Weather condition"),
   ("precipitation", "Precipitation amount"),
   ("visibility", "Visibility distance"),
   ("timestamp", "Data timestamp"),
   ("date", "Date of observation"),
   ("time", "Time of observation"),
   ("updated_at", "Last update timestamp"),
   ("created_at", "Record creation timestamp")]

/-- `SchemaManager._get_field_description`: exact dictionary lookup on the
lowered name, then the first partial match (`key in field_name.lower()`) in
insertion order, then the fallback. -/
def get_field_description (field_name : String) : String :=
  let lower := pyLower field_name
  match fieldDescriptions.lookup lower with
  | some d => d
  | none =>
    match fieldDescriptions.find? (fun kv => pyContains lower kv.1) with
    | some kv => kv.2
    | none => "Data field"

/-- One iteration of the field loop in
`SchemaManager.get_schema_description` (builds `field_desc` and appends the
newline). -/
def describe_field (field : SchemaField) : String :=
  let d0 := "- **" ++ field.name ++ "** (" ++ field.type ++ ")"
  let d1 :=
    if field.description ≠ "" then d0 ++ ": " ++ field.description
    else d0 ++ ": " ++ get_field_description field.name
  let d2 :=
    if field.mode = "REPEATED" then d1 ++ " [ARRAY]"
    else if field.mode = "REQUIRED" then d1 ++ " [REQUIRED]"
    else d1
  d2 ++ "\n"

/-- The header f-string of `SchemaManager.get_schema_description`. -/
def schemaDescriptionHeader (ti : TableInfo) : String :=
  "\n# Weather Data Table Schema\n\n**Table**: `" ++ ti.full_table_id ++
  "`\n**Description**: " ++ ti.description ++
  "\n**Total Rows**: " ++ pyThousands ti.num_rows ++
  "\n**Last Modified**: " ++ ti.modified ++
  "\n\n## Available Fields:\n\n"

/-- `SchemaManager.get_schema_description`. -/
def get_schema_description (bq : BqOracle) (st : SMState) :
    Except String (String × SMState) :=
  match get_schema bq st with
  | Except.error e => Except.error e
  | Except.ok (schema, st1) =>
    match get_table_info bq st1 with
    | Except.error e => Except.error e
    | Except.ok (ti, st2) =>
      Except.ok (schemaDescriptionHeader ti ++ String.join (schema.map describe_field), st2)

/-- `SchemaManager.get_sample_data_description` (called with the default
`num_samples = 3`): a fetch failure is caught and degrades to the
fallback section. -/
def get_sample_data_description (bq : BqOracle) : String :=
  match bq.fetchSamples with
  | Except.ok dfText => "\n## Sample Data (3 rows):\n\n" ++ dfText
  | Except.error _ => "\n## Sample Data: Not available\n"

/-- The query-guidelines block appended by `SchemaManager.get_full_context`,
after `.format(full_table=Config.get_full_table_name())`. -/
def queryGuidelines : String :=
  "\n\n## Query Guidelines:\n\n" ++
  "1. Always use the full table name in queries: `" ++ Config.get_full_table_name ++ "`\n" ++
  "2. Use appropriate WHERE clauses to filter data\n" ++
  "3. Consider using LIMIT to restrict result size\n" ++
  "4. Use aggregation functions (AVG, MAX, MIN, COUNT) for analytics\n" ++
  "5. Format timestamps appropriately for time-based queries\n" ++
  "6. Use LIKE for partial text matching on location fields\n\n" ++
  "## Example Queries:\n\n```sql\n" ++
  "-- Get current weather for a specific location\n" ++
  "SELECT * FROM `" ++ Config.get_full_table_name ++ "` \n" ++
  "WHERE location = 'Toronto' \nLIMIT 10;\n\n" ++
  "-- Get average temperature by location\n" ++
  "SELECT location, AVG(temperature) as avg_temp \n" ++
  "FROM `" ++ Config.get_full_table_name ++ "` \nGROUP BY location;\n\n" ++
  "-- Get recent weather data\n" ++
  "SELECT * FROM `" ++ Config.get_full_table_name ++ "` \n" ++
  "WHERE timestamp >= TIMESTAMP_SUB(CURRENT_TIMESTAMP(), INTERVAL 24 HOUR)\n" ++
  "ORDER BY timestamp DESC;\n```\n"

/-- `SchemaManager.get_full_context`. -/
def get_full_context (bq : BqOracle) (st : SMState) (include_samples : Bool) :
    Except String (String × SMState) :=
  match get_schema_description bq st with
  | Except.error e => Except.error e
  | Except.ok (context, st1) =>
    let context :=
      if include_samples then context ++ get_sample_data_description bq else context
    Except.ok (context ++ queryGuidelines, st1)

/-! ## Weather agent (`src/src/agent.py`) -/

/-- The template of `WeatherAgent._enhance_question` around the schema
context and the question. -/
def enhanceTemplate (schema_context question : String) : String :=
  "\nYou are a helpful assistant that answers questions about weather data stored in BigQuery.\n\n" ++
  schema_context ++
  "\n\nImportant Instructions:\n" ++
  "1. Always use the full table name: `" ++ Config.get_full_table_name ++ "`\n" ++
  "2. Generate SQL queries to answer the user's question \n" ++
  "3. Limit results to " ++ toString Config.MAX_QUERY_RESULTS ++
  " rows unless specifically asked for more\n" ++
  "4. Format your final answer in a clear, human-readable way\n" ++
  "5. If you need to make assumptions, state them clearly\n" ++
  "6. Only perform SELECT queries - no INSERT, UPDATE, or DELETE operations\n\n" ++
  "User Question: " ++ question ++ "\n"

/-- `WeatherAgent._enhance_question`: resolve the schema context through
`SchemaManager.get_full_context(include_samples=False)` and wrap the
question in the instruction template. -/
def enhance_question (bq : BqOracle) (st : SMState) (question : String) :
    Except String (String × SMState) :=
  match get_full_context bq st false with
  | Except.error e => Except.error e
  | Except.ok (schema_context, st1) =>
    Except.ok (enhanceTemplate schema_context question, st1)

/-- The gateway (`BigQueryHelper`) operation a declared tool is backed by. -/
inductive GatewayOp where
  | executeQuery
  | validateQuery
  | getTableSchema
  | getSampleData
  | getTableInfo
deriving Repr, DecidableEq

/-- One tool declaration handed to the completion service. -/
structure ToolDecl where
  name : String
  backing : GatewayOp
deriving Repr, DecidableEq

/-- The tool list bound in `WeatherAgent._initialize_agent`:
`create_agent(model=..., tools=[execute_bigquery], ...)`, where the single
`@tool`-wrapped function `execute_bigquery` calls
`self.bq_helper.execute_query(query)` and stringifies the dataframe. -/
def agentTools : List ToolDecl :=
  [{ name := "execute_bigquery", backing := GatewayOp.executeQuery }]

/-- The public methods of `BigQueryHelper`
(src/src/utils/bigquery_helper.py), the Query Execution Gateway surface. -/
def bigQueryHelperMethods : List String :=
  ["get_table_schema", "get_sample_data", "execute_query", "get_table_info",
   "validate_query"]

/-- The dictionary returned by `WeatherAgent.execute_raw_sql`: the keys
present depend on the path taken. -/
structure RawSqlResult where
  success : Bool
  result : Option String := none
  error : Option String := none
  query : Option String := none
deriving Repr, DecidableEq

/-- `WeatherAgent.execute_raw_sql`.  `dbRun` is the behaviour of
`self.db.run` (in the source `self.db` is `None`, so every call of it
raises; the oracle covers that as the always-`error` instance).  The second
component lists the statements handed to `self.db.run`, so "the query was
never submitted for execution" is `= []`. -/
def execute_raw_sql (dbRun : String → Except String String) (sql_query : String) :
    RawSqlResult × List String :=
  if ¬ pyStartsWith (pyUpper (pyStrip sql_query)) "SELECT" then
    ({ success := false, error := some "Only SELECT queries are allowed" }, [])
  else
    match dbRun sql_query with
    | Except.ok r =>
      ({ success := true, result := some r, query := some sql_query }, [sql_query])
    | Except.error e =>
      ({ success := false, error := some e, query := some sql_query }, [sql_query])

/-- Decidable equality for `Except` outcomes, so concrete dispatcher
outcomes can be settled by `decide`. -/
instance exceptDecEq {ε α : Type} [DecidableEq ε] [DecidableEq α] :
    DecidableEq (Except ε α) := fun x y =>
  match x, y with
  | Except.ok a, Except.ok b =>
    if h : a = b then Decidable.isTrue (by rw [h])
    else Decidable.isFalse (fun hc => h (Except.ok.inj hc))
  | Except.error e, Except.error f =>
    if h : e = f then Decidable.isTrue (by rw [h])
    else Decidable.isFalse (fun hc => h (Except.error.inj hc))
  | Except.ok _, Except.error _ => Decidable.isFalse (fun hc => Except.noConfusion hc)
  | Except.error _, Except.ok _ => Decidable.isFalse (fun hc => Except.noConfusion hc)

/-! ## Spec-side rendering of the history listing (§4.2 of the design) -/

/-- One line of the history listing as the specification words it: a
numbered `role: content` line, the content cut at the 200-character budget
with an ellipsis marker when it exceeds the budget and kept whole
otherwise. -/
def specHistoryLine (i : Nat) (t : Turn) : String :=
  toString i ++ ". " ++ pyCapitalize t.role ++ ": " ++
    (if pyLen t.content > 200 then pyTake t.content 200 ++ "..." else t.content) ++
    "\n\n"

/-- Concatenation of a list of rendered lines. -/
def concatAll : List String → String
  | [] => ""
  | s :: rest => s ++ concatAll rest

/-- The whole listing as the specification words it: the turns rendered in
insertion order, numbered from 1. -/
def renderHistorySpec (history : List Turn) : String :=
  "Conversation History:\n\n" ++
    concatAll ((history.enumFrom 1).map (fun p => specHistoryLine p.1 p.2))

/-! ## Helper lemmas -/

/-- A concrete total behaviour of `WeatherAgent.query`, used to evaluate
`process_query` at concrete turns. -/
def okAgent : String → AgentResult := fun q =>
  { question := q, answer := "42 degrees", success := true }

theorem handle_command_schema_eq (st : CopilotState) (c : String)
    (h : pyStrip (pyLower c) = "/schema") :
    handle_command st c = Except.error schemaBranchError := by
  unfold handle_command
  rw [h]
  simp

theorem handle_command_clear_eq (st : CopilotState) (c : String)
    (h : pyStrip (pyLower c) = "/clear") :
    handle_command st c =
      Except.ok (⟨[]⟩, commandResponse true "Conversation history cleared.") := by
  unfold handle_command
  rw [h]
  simp

theorem handle_command_history_eq (st : CopilotState) (c : String)
    (h : pyStrip (pyLower c) = "/history") :
    handle_command st c =
      Except.ok (st, commandResponse true (format_history st.history)) := by
  unfold handle_command
  rw [h]
  simp

theorem process_query_command_eq (A : String → AgentResult) (st : CopilotState)
    (input : String) (h : commandRecognized input = true) :
    process_query A st input =
      (match handle_command { history := st.history ++ [⟨"user", input⟩] } input with
       | Except.ok out => out
       | Except.error e =>
         ({ history := st.history ++ [⟨"user", input⟩] }, processQueryErrorResponse e)) := by
  simp [process_query, h]

theorem process_query_llm_eq (A : String → AgentResult) (st : CopilotState)
    (input : String) (h : commandRecognized input = false) :
    process_query A st input =
      ((if (A input).success then
          ⟨st.history ++ [⟨"user", input⟩, ⟨"assistant", (A input).answer⟩]⟩
        else ⟨st.history ++ [⟨"user", input⟩]⟩ : CopilotState),
       synthesize_response (A input)) := by
  simp [process_query, h]

theorem handle_command_state (st : CopilotState) (c : String)
    (h : pyStrip (pyLower c) ≠ "/clear") :
    (match handle_command st c with
     | Except.ok out => out.1
     | Except.error _ => st) = st := by
  unfold handle_command
  by_cases h1 : pyStrip (pyLower c) = "/help"
  · simp [h1]
  by_cases h2 : pyStrip (pyLower c) = "/schema"
  · simp [h1, h2]
  by_cases h3 : pyStrip (pyLower c) = "/history"
  · simp [h1, h2, h3]
  by_cases h5 : pyStrip (pyLower c) = "/status"
  · simp [h1, h2, h3, h, h5]
  simp [h1, h2, h3, h, h5]

theorem formatHistoryLine_eq_spec (i : Nat) (t : Turn) :
    formatHistoryLine i t = specHistoryLine i t := rfl

theorem formatHistoryLoop_eq_spec (history : List Turn) : ∀ i : Nat,
    formatHistoryLoop i history =
      concatAll ((history.enumFrom i).map (fun p => specHistoryLine p.1 p.2)) := by
  induction history with
  | nil => intro i; rfl
  | cons t rest ih =>
    intro i
    simp [formatHistoryLoop, List.enumFrom, concatAll, ih (i + 1),
      formatHistoryLine_eq_spec]

/-! ## Claims -/

/-- C1: the spec claims the value returned by `process_query` always has
`answer` and `success` and carries `is_command` exactly when the input was
dispatched as a command.  The code violates the iff at input "/schema":
the turn is recognized and dispatched as a command, but the dispatcher
raises (`get_schema_info` takes no `include_samples` argument), the
exception is caught by `process_query`, and the returned dictionary has no
`is_command` key and `success = False`. -/
theorem C1_schema_turn_drops_is_command :
    commandRecognized "/schema" = true ∧
    (process_query okAgent ⟨[]⟩ "/schema").2.is_command = none ∧
    (process_query okAgent ⟨[]⟩ "/schema").2 =
      processQueryErrorResponse schemaBranchError := by decide

/-- C2: the spec claims the Command Dispatcher never raises to its caller.
The code violates this: the "/schema" branch raises a `TypeError`
(modelled as the `Except.error` outcome), which escapes
`_handle_command`.  The unknown-command half of the claim does hold, as
the second conjunct records at the concrete input "/frobnicate". -/
theorem C2_dispatcher_raises_on_schema :
    handle_command ⟨[]⟩ "/schema" = Except.error schemaBranchError ∧
    handle_command ⟨[]⟩ "/frobnicate" =
      Except.ok (⟨[]⟩, commandResponse false
        "Unknown command: /frobnicate. Type /help for available commands.") := by decide

/-- C3: the spec claims "/status" yields a successful CommandResponse with
the table identifier and turn count and no completion-service call.  The
code violates this: `_get_status` calls `validate_connection`, which is
commented out in `WeatherAgent`, the `AttributeError` escapes the
dispatcher, and `process_query` returns the caught-error dictionary with
`success = False` and no `is_command` key. -/
theorem C3_status_turn_fails :
    handle_command ⟨[]⟩ "/status" = Except.error statusBranchError ∧
    (process_query okAgent ⟨[]⟩ "/status").2 =
      processQueryErrorResponse statusBranchError := by decide

/-- C4 counterexample: a command turn appends one entry (the user turn) to
the conversation history, not zero: processing "/help" from an empty
history leaves exactly one entry. -/
theorem C4_counterexample :
    commandRecognized "/help" = true ∧
    (process_query okAgent ⟨[]⟩ "/help").2.is_command = some true ∧
    (process_query okAgent ⟨[]⟩ "/help").1.history = [⟨"user", "/help"⟩] := by decide

/-- C4 (amended): every turn first appends the user entry to the history;
a successful LLM turn appends the user and the assistant entries (growth
two, not one); a failed LLM turn and every command turn other than
"/clear" grow the history by exactly the user entry (one, not zero); a
"/clear" turn empties the history. -/
theorem C4_history_growth (A : String → AgentResult) (st : CopilotState)
    (input : String) :
    (commandRecognized input = true → pyStrip (pyLower input) ≠ "/clear" →
      (process_query A st input).1 = ⟨st.history ++ [⟨"user", input⟩]⟩) ∧
    (commandRecognized input = true → pyStrip (pyLower input) = "/clear" →
      (process_query A st input).1 = ⟨[]⟩) ∧
    (commandRecognized input = false → (A input).success = true →
      (process_query A st input).1 =
        ⟨st.history ++ [⟨"user", input⟩, ⟨"assistant", (A input).answer⟩]⟩) ∧
    (commandRecognized input = false → (A input).success = false →
      (process_query A st input).1 = ⟨st.history ++ [⟨"user", input⟩]⟩) := by
  refine ⟨?_, ?_, ?_, ?_⟩
  · intro h1 h2
    rw [process_query_command_eq A st input h1]
    have hst := handle_command_state ⟨st.history ++ [⟨"user", input⟩]⟩ input h2
    cases hm : handle_command ⟨st.history ++ [⟨"user", input⟩]⟩ input with
    | ok out =>
      rw [hm] at hst
      simpa using hst
    | error e => simp
  · intro h1 h2
    rw [process_query_command_eq A st input h1, handle_command_clear_eq _ input h2]
  · intro h1 h2
    rw [process_query_llm_eq A st input h1]
    simp [h2]
  · intro h1 h2
    rw [process_query_llm_eq A st input h1]
    simp [h2]

/-- C5 counterexample: after "/clear", the next "/history" turn does not
report an empty history: the "/history" user turn has already been
appended, so the answer lists that single entry instead of the
no-history message. -/
theorem C5_counterexample :
    (process_query okAgent (process_query okAgent ⟨[]⟩ "/clear").1 "/history").2.answer =
      "Conversation History:\n\n1. User: /history\n\n" ∧
    (process_query okAgent (process_query okAgent ⟨[]⟩ "/clear").1 "/history").2.answer ≠
      "No conversation history yet." := by decide

/-- C5 (amended): for every prior state and agent behaviour, "/clear"
followed by "/history" yields a successful command response listing
exactly one entry — the "/history" user turn itself, appended before
command dispatch — never a response indicating no history. -/
theorem C5_clear_then_history (A B : String → AgentResult) (st : CopilotState) :
    (process_query B (process_query A st "/clear").1 "/history").2 =
      commandResponse true "Conversation History:\n\n1. User: /history\n\n" := by
  have h1 : (process_query A st "/clear").1 = ⟨[]⟩ := by
    rw [process_query_command_eq A st "/clear" (by decide),
      handle_command_clear_eq _ "/clear" (by decide)]
  rw [h1, process_query_command_eq B ⟨[]⟩ "/history" (by decide),
    handle_command_history_eq _ "/history" (by decide)]
  decide

/-- C6 counterexample: " /SCHEMA " is not recognized as a command at all —
the reserved-prefix test is applied to the lowered but untrimmed input, so
the leading blank defeats it — while "/schema" is recognized; the
" /SCHEMA " turn is routed to the LLM pipeline and its response has no
`is_command` key. -/
theorem C6_counterexample :
    commandRecognized " /SCHEMA " = false ∧
    commandRecognized "/schema" = true ∧
    (process_query okAgent ⟨[]⟩ " /SCHEMA ").2.is_command = none := by decide

/-- C6 (amended): command recognition is case-insensitive but not
whitespace-trimmed.  "/schema" and "/Schema" are dispatched to the same
schema branch and produce identical responses for every prior state and
agent behaviour, while " /SCHEMA " fails the reserved-prefix test and is
routed to the LLM pipeline instead. -/
theorem C6_case_insensitive_untrimmed (A : String → AgentResult) (st : CopilotState) :
    (process_query A st "/schema").2 = (process_query A st "/Schema").2 ∧
    commandRecognized "/Schema" = true ∧
    commandRecognized " /SCHEMA " = false ∧
    (process_query A st " /SCHEMA ").2 = synthesize_response (A " /SCHEMA ") := by
  refine ⟨?_, by decide, by decide, ?_⟩
  · rw [process_query_command_eq A st "/schema" (by decide),
      process_query_command_eq A st "/Schema" (by decide),
      handle_command_schema_eq _ "/schema" (by decide),
      handle_command_schema_eq _ "/Schema" (by decide)]
  · rw [process_query_llm_eq A st " /SCHEMA " (by decide)]

/-- C7: with the schema and table-info caches already resolved,
`_enhance_question` returns the prompt determined by the cached context
and the question alone, leaves the schema-manager state unchanged, and
does not depend on the BigQuery oracle at all — so two calls with the same
question produce byte-identical prompts and perform no state mutation. -/
theorem C7_enhance_question_pure (bq : BqOracle) (st : SMState) (q : String)
    (s : List SchemaField) (ti : TableInfo)
    (hs : st.schema_cache = some s) (ht : st.table_info_cache = some ti) :
    enhance_question bq st q =
      Except.ok (enhanceTemplate (schemaDescriptionHeader ti ++
        String.join (s.map describe_field) ++ queryGuidelines) q, st) ∧
    (∀ bq2 : BqOracle, enhance_question bq2 st q = enhance_question bq st q) := by
  have key : ∀ b : BqOracle, enhance_question b st q =
      Except.ok (enhanceTemplate (schemaDescriptionHeader ti ++
        String.join (s.map describe_field) ++ queryGuidelines) q, st) := by
    intro b
    unfold enhance_question get_full_context get_schema_description get_schema get_table_info
    rw [hs]
    simp [ht]
  exact ⟨key bq, fun bq2 => (key bq2).trans (key bq).symm⟩

/-- A concrete schema field for evaluating the schema pipeline. -/
def sampleField : SchemaField :=
  { name := "temperature", type := "FLOAT", mode := "NULLABLE", description := "" }

/-- A concrete table-info record for evaluating the schema pipeline. -/
def sampleTableInfo : TableInfo :=
  { project := "cio-datahub-enterprise-pr-183a", dataset := "ent_common_location",
    table := "bq_weather_current",
    full_table_id := "cio-datahub-enterprise-pr-183a.ent_common_location.bq_weather_current",
    num_rows := 12345, num_bytes := 1000, created := "2025-01-01",
    modified := "2025-06-01", description := "" }

/-- A schema-manager state whose caches are already resolved. -/
def cachedState : SMState :=
  { schema_cache := some [sampleField], table_info_cache := some sampleTableInfo }

/-- A BigQuery oracle whose every fetch raises: any consultation of it
would surface as an `Except.error`. -/
def failingBq : BqOracle :=
  { fetchSchema := Except.error "unreachable",
    fetchTableInfo := Except.error "unreachable",
    fetchSamples := Except.error "unreachable" }

/-- C7 witness: the purity theorem applied at a concrete cached state,
question and (failing) oracle. -/
theorem C7_witness :
    cachedState.schema_cache = some [sampleField] ∧
    cachedState.table_info_cache = some sampleTableInfo ∧
    (enhance_question failingBq cachedState "What is the weather in Toronto?" =
      Except.ok (enhanceTemplate (schemaDescriptionHeader sampleTableInfo ++
        String.join ([sampleField].map describe_field) ++ queryGuidelines)
        "What is the weather in Toronto?", cachedState) ∧
    (∀ bq2 : BqOracle, enhance_question bq2 cachedState "What is the weather in Toronto?" =
      enhance_question failingBq cachedState "What is the weather in Toronto?")) :=
  ⟨rfl, rfl,
    C7_enhance_question_pure failingBq cachedState "What is the weather in Toronto?"
      [sampleField] sampleTableInfo rfl rfl⟩

/-- C8 counterexample: the agent declares one tool, not two, and its tool
name list is not the claimed `validate_query`/`execute_query` pair. -/
theorem C8_counterexample :
    agentTools.length ≠ 2 ∧
    agentTools.map ToolDecl.name ≠ ["validate_query", "execute_query"] := by decide

/-- C8 (amended): every submission declares exactly one callable tool,
`execute_bigquery`, backed by the gateway's `execute_query`; the gateway
also offers `validate_query`, but it is never declared to the completion
service. -/
theorem C8_single_tool :
    agentTools = [{ name := "execute_bigquery", backing := GatewayOp.executeQuery }] ∧
    (agentTools.map ToolDecl.name).contains "validate_query" = false ∧
    bigQueryHelperMethods.contains "validate_query" = true := by decide

/-- C9: on a non-empty history, `_format_history` renders exactly the
listing the spec describes: numbered `role: content` lines in insertion
order, each content cut at the 200-character budget with an ellipsis
marker when it exceeds the budget and kept whole at 200 or fewer. -/
theorem C9_history_rendering (history : List Turn) (h : history ≠ []) :
    format_history history = renderHistorySpec history ∧
    (∀ t : Turn, pyLen t.content ≤ 200 → truncateContent t.content = t.content) ∧
    (∀ t : Turn, 200 < pyLen t.content →
      truncateContent t.content = pyTake t.content 200 ++ "...") := by
  refine ⟨?_, ?_, ?_⟩
  · cases history with
    | nil => exact absurd rfl h
    | cons t rest =>
      unfold format_history renderHistorySpec
      rw [formatHistoryLoop_eq_spec]
      simp [List.isEmpty]
  · intro t ht
    unfold truncateContent
    rw [if_neg (by omega)]
  · intro t ht
    unfold truncateContent
    rw [if_pos (by omega)]

/-- C9 witness: the rendering theorem applied to a concrete one-turn
history. -/
theorem C9_witness :
    ([⟨"user", "hi"⟩] : List Turn) ≠ [] ∧
    (format_history [⟨"user", "hi"⟩] = renderHistorySpec [⟨"user", "hi"⟩] ∧
     (∀ t : Turn, pyLen t.content ≤ 200 → truncateContent t.content = t.content) ∧
     (∀ t : Turn, 200 < pyLen t.content →
       truncateContent t.content = pyTake t.content 200 ++ "...")) :=
  ⟨by decide, C9_history_rendering [⟨"user", "hi"⟩] (by decide)⟩

/-- C10: a statement whose stripped, uppercased form does not start with
SELECT is rejected with the fixed error dictionary (no `query` key, no
`result` key) and is never handed to `self.db.run`, whatever the database
behaviour. -/
theorem C10_select_only_gate (dbRun : String → Except String String) (sql : String)
    (h : pyStartsWith (pyUpper (pyStrip sql)) "SELECT" = false) :
    execute_raw_sql dbRun sql =
      ({ success := false, error := some "Only SELECT queries are allowed" }, []) := by
  simp [execute_raw_sql, h]

/-- C10 witness: the gate theorem applied to a concrete non-SELECT
statement and a concrete database behaviour. -/
theorem C10_witness :
    pyStartsWith (pyUpper (pyStrip "DROP TABLE weather")) "SELECT" = false ∧
    execute_raw_sql (fun _ => Except.error "no db") "DROP TABLE weather" =
      ({ success := false, error := some "Only SELECT queries are allowed" }, []) :=
  ⟨by decide,
    C10_select_only_gate (fun _ => Except.error "no db") "DROP TABLE weather" (by decide)⟩
